import Mathlib

/-!
Verification of claims about the Nissan ML Platform and EV Battery Predictor
React frontends: the browser-local token store, the shared HTTP client's
request/response interceptors, the client-side authentication guard, the
training-status polling loops, confirmed deletion from list views, the
custom-prediction flow, and the dashboard quick statistics.

Each definition is a shallow embedding of the corresponding JavaScript code;
doc comments name the source file and function it is translated from.
-/

/-! ## Browser-local token store (localStorage) -/

/-- The browser's `localStorage`: a partial map from keys to string values.
`getItem` returns `null` (here `none`) for absent keys. -/
def BrowserStore : Type := String → Option String

/-- `localStorage.setItem k v`: sets key `k` to `v`, leaving other keys alone. -/
def lsSetItem (s : BrowserStore) (k v : String) : BrowserStore :=
  fun k' => if k' = k then some v else s k'

/-- `localStorage.removeItem k`: removes key `k`, leaving other keys alone. -/
def lsRemoveItem (s : BrowserStore) (k : String) : BrowserStore :=
  fun k' => if k' = k then none else s k'

/-- JavaScript truthiness of a `localStorage.getItem` result: `null` and the
empty string are falsy, every other string is truthy. -/
def jsTruthy : Option String → Bool
  | none => false
  | some t => !(t == "")

/-- The store's `'token'` key holds a token (a nonempty string — the JS code
tests the value with truthiness, under which `''` counts as absent). -/
def holdsToken (s : BrowserStore) : Prop :=
  ∃ t, s "token" = some t ∧ t ≠ ""

/-- A concrete empty store, for evaluating the definitions. -/
def emptyStore : BrowserStore := fun _ => none

/-! ## Authentication service over the store

From `src/nissan-ml-platform/frontend/src/services/api.js` (`authService`) and
`src/ev-battery-predictor/frontend/src/contexts/AuthContext.js`
(`login` / `logout`): both frontends store the backend's `access_token` under
the single key `'token'` and remove that key on logout. -/

/-- `authService.login` / EV `login` store step:
`localStorage.setItem('token', access_token)`. -/
def authLoginStore (s : BrowserStore) (access_token : String) : BrowserStore :=
  lsSetItem s "token" access_token

/-- `authService.logout` / EV `logout` store step:
`localStorage.removeItem('token')`. -/
def authLogoutStore (s : BrowserStore) : BrowserStore :=
  lsRemoveItem s "token"

/-- `authService.isAuthenticated`: `!!localStorage.getItem('token')`. -/
def authIsAuthenticated (s : BrowserStore) : Bool :=
  jsTruthy (s "token")

/-! ## Shared HTTP client interceptors

The request interceptor is textually identical in
`src/nissan-ml-platform/frontend/src/services/api.js` (lines 16–25) and
`src/ev-battery-predictor/frontend/src/services/api.js` (lines 13–30):
`const token = localStorage.getItem('token'); if (token) {
config.headers.Authorization = \x7bBearer ${token}\x7d; }`. -/

/-- Authorization header attached by the request interceptor: `some h` when the
header is set to `h`, `none` when no Authorization header is attached. -/
def requestAuthHeader (s : BrowserStore) : Option String :=
  match s "token" with
  | none => none
  | some t => if t = "" then none else some ("Bearer " ++ t)

/-- The response interceptor of both frontends
(`nissan-ml-platform .../services/api.js` lines 28–38,
`ev-battery-predictor .../services/api.js` lines 33–42): on an error whose
response has status 401 it removes the token and redirects to `/login`; in
every case it returns `Promise.reject(error)`.
Input: the error's response status (`none` when the error has no response).
Output: (store after, redirect target if any, error rejected to caller). -/
def responseInterceptor (s : BrowserStore) (status : Option Nat) :
    BrowserStore × Option String × Bool :=
  if status = some 401 then (lsRemoveItem s "token", some "/login", true)
  else (s, none, true)

/-! ## Client-side authentication guard on initialization -/

/-- The decoded JWT payload, as used by the Nissan guard: only the `exp`
claim (seconds since epoch) is read. -/
structure JwtClaims where
  exp : ℚ
  deriving DecidableEq, Repr

/-- Nissan `AuthProvider.initAuth`
(`src/nissan-ml-platform/frontend/src/context/AuthContext.js` lines 15–50):
with a token in the store it decodes it (`jwtDecode`), compares `exp` with
`Date.now() / 1000`, removes the token and leaves the user unset when expired
or undecodable, and otherwise fetches the current user; a profile-fetch
failure is caught by the same inner `catch`, which removes the token.
Arguments: store value of `'token'`, the JWT decoder (`none` = decode throws),
the current time in seconds, and the profile-fetch outcome.
Result: (token left in store, current user, whether a profile fetch was issued). -/
def nissanInitAuth (token? : Option String) (decode : String → Option JwtClaims)
    (now : ℚ) (fetchUser : Except Unit String) :
    Option String × Option String × Bool :=
  match token? with
  | none => (none, none, false)
  | some t =>
    match decode t with
    | none => (none, none, false)
    | some c =>
      if c.exp < now then (none, none, false)
      else
        match fetchUser with
        | .ok u => (some t, some u, true)
        | .error _ => (none, none, true)

/-- EV `AuthProvider` initialization effect
(`src/ev-battery-predictor/frontend/src/contexts/AuthContext.js` lines 20–38):
with a token in the store it fetches the profile; on success the user is set
and the token kept, on failure the token is removed. The token is never
decoded and no expiry comparison is made.
Result: (token left in store, current user, whether a profile fetch was issued). -/
def evInitAuth (token? : Option String) (fetchProfile : Except Unit String) :
    Option String × Option String × Bool :=
  match token? with
  | none => (none, none, false)
  | some t =>
    match fetchProfile with
    | .ok u => (some t, some u, true)
    | .error _ => (none, none, true)

/-! ## Claim theorems -/

/-- C4: authentication state is held in the browser-local token store: login
stores exactly the backend's `access_token` under the single key `'token'`
(all other keys unchanged), logout removes exactly that key (all other keys
unchanged), and `isAuthenticated` returns `true` iff the `'token'` key holds a
token (nonempty value, per JS truthiness). -/
theorem auth_token_store_spec (s : BrowserStore) (access_token : String) (k : String)
    (hk : k ≠ "token") :
    authLoginStore s access_token "token" = some access_token ∧
    authLoginStore s access_token k = s k ∧
    authLogoutStore s "token" = none ∧
    authLogoutStore s k = s k ∧
    (authIsAuthenticated s = true ↔ holdsToken s) := by
  refine ⟨?_, ?_, ?_, ?_, ?_⟩
  · simp [authLoginStore, lsSetItem]
  · simp [authLoginStore, lsSetItem, hk]
  · simp [authLogoutStore, lsRemoveItem]
  · simp [authLogoutStore, lsRemoveItem, hk]
  · unfold authIsAuthenticated jsTruthy holdsToken
    cases h : s "token" with
    | none => simp
    | some t => simp [h]

/-- Witness for `auth_token_store_spec` at a concrete store, token and key. -/
theorem auth_token_store_spec_witness :
    authLoginStore emptyStore "abc123" "token" = some "abc123" ∧
    authLoginStore emptyStore "abc123" "theme" = emptyStore "theme" ∧
    authLogoutStore emptyStore "token" = none ∧
    authLogoutStore emptyStore "theme" = emptyStore "theme" ∧
    (authIsAuthenticated emptyStore = true ↔ holdsToken emptyStore) :=
  auth_token_store_spec emptyStore "abc123" "theme" (by decide)

/-- C5: every request issued through either frontend's shared HTTP client
carries `Authorization: Bearer <token>` exactly when the store holds a token,
and no Authorization header when it does not. -/
theorem request_auth_header_spec (s : BrowserStore) (t : String)
    (ht : s "token" = some t) (hne : t ≠ "") :
    requestAuthHeader s = some ("Bearer " ++ t) ∧
    (∀ s' : BrowserStore, s' "token" = none → requestAuthHeader s' = none) := by
  constructor
  · simp [requestAuthHeader, ht, hne]
  · intro s' h
    simp [requestAuthHeader, h]

/-- Witness for `request_auth_header_spec`: a store holding token `tok123`
yields the `Bearer tok123` header, and the empty store yields no header. -/
theorem request_auth_header_spec_witness :
    requestAuthHeader (authLoginStore emptyStore "tok123") =
      some ("Bearer " ++ "tok123") ∧
    (∀ s' : BrowserStore, s' "token" = none → requestAuthHeader s' = none) :=
  request_auth_header_spec (authLoginStore emptyStore "tok123") "tok123"
    (by simp [authLoginStore, lsSetItem]) (by decide)

/-- C8: in both frontends, a 401 response removes the token from the store and
redirects to `/login`, and the error is still rejected to the caller; any
other error status leaves the store untouched (and still rejects). -/
theorem response_interceptor_spec (s : BrowserStore) (status : Option Nat) :
    (status = some 401 →
      responseInterceptor s status =
        (lsRemoveItem s "token", some "/login", true)) ∧
    (status ≠ some 401 →
      responseInterceptor s status = (s, none, true)) ∧
    (responseInterceptor s status).2.2 = true := by
  refine ⟨fun h => ?_, fun h => ?_, ?_⟩
  · simp [responseInterceptor, h]
  · simp [responseInterceptor, h]
  · by_cases h : status = some 401 <;> simp [responseInterceptor, h]

/-- Witness for `response_interceptor_spec` at status 401 and status 500. -/
theorem response_interceptor_spec_witness :
    responseInterceptor emptyStore (some 401) =
      (lsRemoveItem emptyStore "token", some "/login", true) ∧
    responseInterceptor emptyStore (some 500) = (emptyStore, none, true) :=
  ⟨(response_interceptor_spec emptyStore (some 401)).1 rfl,
   (response_interceptor_spec emptyStore (some 500)).2.1 (by decide)⟩

/-! ## C3: the client-side authentication guard -/

/-- A decode oracle for a token whose `exp` claim is 0 (long expired). -/
def expiredDecode : String → Option JwtClaims := fun _ => some ⟨0⟩

/-- C3 counterexample: the claim asserts that *every* frontend compares the
token's `exp` claim against the current time on initialization and removes an
expired token. The EV frontend does not: its initialization never decodes the
token. Concretely, with a token that decodes to `exp = 0` at current time
`now = 1` (so the token is expired) and a successful profile fetch, the EV
guard keeps the token and authenticates the user, where the claim requires the
token to be removed and the user left unauthenticated. -/
theorem ev_init_auth_ignores_expiry :
    expiredDecode "tok" = some ⟨0⟩ ∧ (0 : ℚ) < 1 ∧
    evInitAuth (some "tok") (Except.ok "profile") =
      (some "tok", some "profile", true) := by
  refine ⟨rfl, by norm_num, ?_⟩
  simp [evInitAuth]

/-- C3 amended: only the Nissan frontend performs the JWT expiry comparison on
initialization: with a token present, an expired (`exp < now`) or undecodable
token is removed and the user left unauthenticated without any profile fetch,
and only otherwise is the profile fetched. The EV frontend performs no expiry
check at all: with a token present it always fetches the profile, keeps the
token exactly when the fetch succeeds, and removes it when the fetch fails. -/
theorem init_auth_guard_spec (t : String) (decode : String → Option JwtClaims)
    (now : ℚ) (c : JwtClaims) (fetchUser : Except Unit String) :
    (decode t = some c → c.exp < now →
      nissanInitAuth (some t) decode now fetchUser = (none, none, false)) ∧
    (decode t = none →
      nissanInitAuth (some t) decode now fetchUser = (none, none, false)) ∧
    (decode t = some c → ¬ c.exp < now → ∀ u, fetchUser = .ok u →
      nissanInitAuth (some t) decode now fetchUser = (some t, some u, true)) ∧
    (decode t = some c → ¬ c.exp < now → fetchUser = .error () →
      nissanInitAuth (some t) decode now fetchUser = (none, none, true)) ∧
    (∀ u, fetchUser = .ok u →
      evInitAuth (some t) fetchUser = (some t, some u, true)) ∧
    (fetchUser = .error () →
      evInitAuth (some t) fetchUser = (none, none, true)) := by
  refine ⟨fun hd hexp => ?_, fun hd => ?_, fun hd hexp u hf => ?_,
    fun hd hexp hf => ?_, fun u hf => ?_, fun hf => ?_⟩
  · simp [nissanInitAuth, hd, hexp]
  · simp [nissanInitAuth, hd]
  · simp [nissanInitAuth, hd, hexp, hf]
  · simp [nissanInitAuth, hd, hexp, hf]
  · simp [evInitAuth, hf]
  · simp [evInitAuth, hf]

/-- Witness for `init_auth_guard_spec`: an expired token (`exp = 0 < 1 = now`)
is removed by the Nissan guard, and the EV guard keeps a token whose profile
fetch succeeds. -/
theorem init_auth_guard_spec_witness :
    nissanInitAuth (some "tok") expiredDecode 1 (Except.ok "u") =
      (none, none, false) ∧
    evInitAuth (some "tok") (Except.ok "u") = (some "tok", some "u", true) :=
  ⟨(init_auth_guard_spec "tok" expiredDecode 1 ⟨0⟩ (Except.ok "u")).1
      rfl (by norm_num),
   (init_auth_guard_spec "tok" expiredDecode 1 ⟨0⟩ (Except.ok "u")).2.2.2.2.1
      "u" rfl⟩

/-! ## Training-status polling loops (C1, C2)

The repository has four fixed-interval polling loops:
* EV Models page, `handleTrainModel`
  (`src/ev-battery-predictor/frontend/src/pages/Models.js` lines 112–146):
  `setInterval(..., 5000)`; the `catch` around each poll clears the interval;
  the interval is cleared when `is_trained` becomes true; a
  `setTimeout(..., 300000)` clears it after 5 minutes; no unmount cleanup.
* EV model-detail page, `handleTrainModel` (`src/unnamed/part_009`
  lines 86–120): identical structure, `setInterval(..., 5000)` with the same
  5-minute `setTimeout` and error-triggered `clearInterval`.
* Nissan training form, `handleTrainModel` (`src/unnamed/part_005`,
  `ModelTraining.js`, lines 201–254): `setInterval(..., 3000)`; cleared when
  `training_status` reaches `'completed'` or `'failed'`; the `catch` only logs;
  a `useEffect` cleanup (lines 152–158) runs `clearInterval(pollingInterval)`,
  but it closes over the `pollingInterval` state value of the render in which
  the effect ran — `null` at mount — so on unmount it clears nothing.
* Nissan models list, `useEffect`
  (`src/nissan-ml-platform/frontend/src/components/ml/ModelsList.js`
  lines 90–105): `setInterval(..., 5000)`, cleared only by the effect cleanup
  (which correctly captures the local `interval` const).
-/

/-- Cancellation/termination facts of one polling loop, read off the source. -/
structure PollLoop where
  /-- the constant delay passed to `setInterval`, in milliseconds -/
  intervalMs : Nat
  /-- a `setTimeout(() => clearInterval(...), d)` cancels the loop after `d` ms -/
  timeoutMs : Option Nat
  /-- the `catch` around a poll calls `clearInterval` -/
  clearsOnPollError : Bool
  /-- the loop clears itself when the polled status is terminal -/
  clearsOnTerminal : Bool
  /-- a `useEffect` cleanup that calls `clearInterval` is registered -/
  registersUnmountCleanup : Bool
  /-- that cleanup actually clears this loop's interval on unmount -/
  unmountCleanupEffective : Bool
  deriving DecidableEq, Repr

/-- EV Models page training poll (`Models.js` `handleTrainModel`). -/
def evModelsPagePoll : PollLoop :=
  { intervalMs := 5000
    timeoutMs := some 300000
    clearsOnPollError := true
    clearsOnTerminal := true
    registersUnmountCleanup := false
    unmountCleanupEffective := false }

/-- EV model-detail page training poll (`src/unnamed/part_009`
`handleTrainModel`). -/
def evModelDetailPoll : PollLoop :=
  { intervalMs := 5000
    timeoutMs := some 300000
    clearsOnPollError := true
    clearsOnTerminal := true
    registersUnmountCleanup := false
    unmountCleanupEffective := false }

/-- Nissan training form poll (`src/unnamed/part_005` `handleTrainModel`). -/
def nissanTrainingFormPoll : PollLoop :=
  { intervalMs := 3000
    timeoutMs := none
    clearsOnPollError := false
    clearsOnTerminal := true
    registersUnmountCleanup := true
    unmountCleanupEffective := false }

/-- Nissan models list refresh poll (`ModelsList.js` `useEffect`). -/
def nissanModelsListPoll : PollLoop :=
  { intervalMs := 5000
    timeoutMs := none
    clearsOnPollError := false
    clearsOnTerminal := false
    registersUnmountCleanup := true
    unmountCleanupEffective := true }

/-- `setInterval(cb, d)` fires the callback at `d, 2d, 3d, ...` milliseconds:
the time of tick `n` (0-indexed). -/
def tickTime (p : PollLoop) (n : Nat) : Nat :=
  (n + 1) * p.intervalMs

/-- Delay between tick `n` and tick `n + 1` of a polling loop. -/
def tickDelay (p : PollLoop) (n : Nat) : Nat :=
  tickTime p (n + 1) - tickTime p n

/-- C1 counterexample: the claim asserts that, beyond try/catch, no mechanism
(timeout, unmount cleanup, or error-triggered shutdown) cancels a
training-status polling loop. The EV Models page loop is cancelled by a
5-minute `setTimeout` and is shut down by its `catch` on the first poll
error, refuting the claim at that loop. -/
theorem training_poll_cancellation_exists :
    ¬ (evModelsPagePoll.timeoutMs = none ∧
       evModelsPagePoll.clearsOnPollError = false ∧
       evModelsPagePoll.registersUnmountCleanup = false) := by
  decide

/-- C1 amended: every polling loop started after a training request does carry
a cancellation mechanism beyond try/catch. The two EV training polls are
cancelled by a 5-minute (300000 ms) `setTimeout` and are shut down by their
`catch` on the first poll error (and cleared on `is_trained`); the Nissan
training-form poll clears itself at a terminal training status and registers
an unmount cleanup — though that cleanup closes over the initial `null`
interval id and so clears nothing on unmount. -/
theorem training_poll_cancellation_mechanisms :
    evModelsPagePoll.timeoutMs = some 300000 ∧
    evModelsPagePoll.clearsOnPollError = true ∧
    evModelsPagePoll.clearsOnTerminal = true ∧
    evModelDetailPoll.timeoutMs = some 300000 ∧
    evModelDetailPoll.clearsOnPollError = true ∧
    evModelDetailPoll.clearsOnTerminal = true ∧
    nissanTrainingFormPoll.clearsOnTerminal = true ∧
    nissanTrainingFormPoll.registersUnmountCleanup = true ∧
    nissanTrainingFormPoll.unmountCleanupEffective = false ∧
    nissanTrainingFormPoll.clearsOnPollError = false := by
  decide

/-- C2: every training-status polling loop is a fixed-interval timer: the
delay between successive status requests is 5000 ms in the EV Models page
and model-detail loops and in the Nissan models list, and 3000 ms in the
Nissan training form, and never changes with the tick number. -/
theorem training_poll_fixed_interval :
    (∀ n, tickDelay evModelsPagePoll n = 5000) ∧
    (∀ n, tickDelay evModelDetailPoll n = 5000) ∧
    (∀ n, tickDelay nissanModelsListPoll n = 5000) ∧
    (∀ n, tickDelay nissanTrainingFormPoll n = 3000) := by
  refine ⟨fun n => ?_, fun n => ?_, fun n => ?_, fun n => ?_⟩ <;>
    simp [tickDelay, tickTime, evModelsPagePoll, evModelDetailPoll,
      nissanModelsListPoll, nissanTrainingFormPoll] <;> omega

/-! ## C7: the Nissan models-list refresh condition -/

/-- An ML model row as rendered by the Nissan models list: its id and
`training_status` (`'pending'`, `'training'`, `'completed'`, `'failed'`). -/
structure MLModelRow where
  id : Nat
  training_status : String
  deriving DecidableEq, Repr

/-- `ModelsList.js` lines 95–97: `models.some(model =>
model.training_status === 'pending' || model.training_status === 'training')`. -/
def hasTrainingModels (models : List MLModelRow) : Bool :=
  models.any fun m =>
    m.training_status == "pending" || m.training_status == "training"

/-- The initial `models` state of the `ModelsList` component:
`useState([])` (`ModelsList.js` line 67). -/
def modelsListMountModels : List MLModelRow := []

/-- One tick of the `ModelsList` interval (`ModelsList.js` lines 94–102):
`loadModels()` is called — a request is issued — iff `hasTrainingModels` holds
of the `models` value the callback closed over. The callback is created once
per effect run (deps `[fileId]`), so it closes over the `models` state of the
render in which the effect ran, not over later states: after mount that
captured value is `modelsListMountModels`. -/
def modelsListTickIssuesRequest (capturedModels : List MLModelRow) : Bool :=
  hasTrainingModels capturedModels

/-- C7: the claim (and the code's own comment, `ModelsList.js` line 93,
"Configurar intervalo para actualizar modelos en entrenamiento") says a tick
refreshes iff some *currently displayed* model is `'pending'` or
`'training'`. The interval callback, however, closes over the `models` state
of the effect's render — the initial empty list — and `setModels` never
re-creates it, so after the list loads a model with status `'training'` the
displayed list satisfies the refresh condition while the tick, evaluating the
stale captured snapshot, issues no request (and never will). -/
theorem models_list_poll_stale_closure :
    hasTrainingModels [⟨1, "training"⟩] = true ∧
    modelsListTickIssuesRequest modelsListMountModels = false := by
  decide

/-! ## C9: confirmed deletion from a list view -/

/-- An entry of a rendered list (file or model): the `id` the delete handler
filters on, and the rest of the row's data. -/
structure ListRow where
  id : Nat
  payload : String
  deriving DecidableEq, Repr

/-- `handleDeleteConfirm` of the Nissan files list
(`src/nissan-ml-platform/frontend/src/services/api.js` appended `FilesList`,
lines 258–278) and of the models list (`ModelsList.js` lines 120–135):
with no item selected nothing happens; when the backend delete succeeds the
list becomes `items.filter(x => x.id !== target.id)`; when it fails (the
`catch` only sets an error message) the list is left unchanged. -/
def handleDeleteConfirm (items : List ListRow) (target : Option ListRow)
    (deleteSucceeds : Bool) : List ListRow :=
  match target with
  | none => items
  | some f =>
    if deleteSucceeds then items.filter fun x => x.id != f.id
    else items

/-- C9: confirmed deletion is atomic with respect to the rendered list: a
failed backend delete leaves the list unchanged, and a successful delete of an
entry `f` of the list (with ids pairwise distinct, as backend primary keys
are) yields exactly the previous list with `f` removed and every other entry
unchanged and in place. -/
theorem delete_confirm_atomic (l₁ l₂ : List ListRow) (f : ListRow)
    (t : Option ListRow)
    (hnodup : ((l₁ ++ f :: l₂).map ListRow.id).Nodup) :
    handleDeleteConfirm (l₁ ++ f :: l₂) t false = l₁ ++ f :: l₂ ∧
    handleDeleteConfirm (l₁ ++ f :: l₂) (some f) true = l₁ ++ l₂ := by
  have hnd := hnodup
  rw [List.map_append, List.nodup_append, List.map_cons, List.nodup_cons] at hnd
  obtain ⟨-, ⟨hfnotin, -⟩, hdisj⟩ := hnd
  have h₁ : ∀ x ∈ l₁, x.id ≠ f.id := by
    intro x hx hEq
    have hmem : x.id ∈ f.id :: List.map ListRow.id l₂ := by
      rw [hEq]; exact List.mem_cons_self _ _
    exact hdisj (List.mem_map_of_mem ListRow.id hx) hmem
  have h₂ : ∀ x ∈ l₂, x.id ≠ f.id := by
    intro x hx hEq
    have hmem : x.id ∈ List.map ListRow.id l₂ := List.mem_map_of_mem ListRow.id hx
    rw [hEq] at hmem
    exact hfnotin hmem
  have e₁ : l₁.filter (fun x => x.id != f.id) = l₁ := by
    apply List.filter_eq_self.mpr
    intro x hx
    simpa [bne_iff_ne] using h₁ x hx
  have e₂ : l₂.filter (fun x => x.id != f.id) = l₂ := by
    apply List.filter_eq_self.mpr
    intro x hx
    simpa [bne_iff_ne] using h₂ x hx
  constructor
  · cases t <;> simp [handleDeleteConfirm]
  · show (l₁ ++ f :: l₂).filter (fun x => x.id != f.id) = l₁ ++ l₂
    rw [List.filter_append, List.filter_cons]
    simp only [bne_self_eq_false, Bool.false_eq_true, if_neg, ite_false]
    rw [e₁, e₂]

/-- Witness for `delete_confirm_atomic` on the concrete list
`[⟨1,"a"⟩, ⟨2,"b"⟩, ⟨3,"c"⟩]`, deleting the middle entry. -/
theorem delete_confirm_atomic_witness :
    handleDeleteConfirm [⟨1, "a"⟩, ⟨2, "b"⟩, ⟨3, "c"⟩] (some ⟨2, "b"⟩) false =
      [⟨1, "a"⟩, ⟨2, "b"⟩, ⟨3, "c"⟩] ∧
    handleDeleteConfirm [⟨1, "a"⟩, ⟨2, "b"⟩, ⟨3, "c"⟩] (some ⟨2, "b"⟩) true =
      [⟨1, "a"⟩, ⟨3, "c"⟩] :=
  delete_confirm_atomic [⟨1, "a"⟩] [⟨3, "c"⟩] ⟨2, "b"⟩ (some ⟨2, "b"⟩)
    (by decide)

/-! ## C6: the custom-prediction flow -/

/-- The request `mlModelService.predict` sends
(`src/nissan-ml-platform/frontend/src/services/api.js` lines 149–152):
`POST /models/{id}/predict` with body `{ indices: [...] }`. -/
structure PredictRequest where
  path : String
  indices : List ℚ
  deriving DecidableEq, Repr

/-- The backend's JSON response: its `predictions` array. -/
structure PredictResponse where
  predictions : List ℚ
  deriving DecidableEq, Repr

/-- Request built by `mlModelService.predict(modelId, { indices })`. -/
def mkPredictRequest (modelId : Nat) (indices : List ℚ) : PredictRequest :=
  ⟨"/models/" ++ toString modelId ++ "/predict", indices⟩

/-- The custom-prediction result state set by `handlePredict`
(`ModelResults.js` lines 121–124): the parsed input and
`result.predictions[0]` (`none` when the array is empty, as JS indexing would
yield `undefined`). The rendered value is `prediction.toFixed(4)` — display
formatting only. -/
structure CustomPrediction where
  index : ℚ
  prediction : Option ℚ
  deriving DecidableEq, Repr

/-- `ModelResults.js` `handlePredict` (lines 104–131): if the input does not
parse to a number (`!predictionInput || isNaN(parseFloat(...))`) an error is
shown and no request is issued; otherwise it posts
`{ indices: [parseFloat(predictionInput)] }` to `/models/{id}/predict` and
stores `result.predictions[0]` untransformed. The backend is a parameter:
the function mapping each request to its JSON response. -/
def handlePredict (backend : PredictRequest → PredictResponse) (modelId : Nat)
    (parsedInput : Option ℚ) : Option CustomPrediction :=
  match parsedInput with
  | none => none
  | some x =>
    some { index := x
           prediction := (backend (mkPredictRequest modelId [x])).predictions.head? }

/-- C6: the frontend performs no ML computation of its own: for a custom
prediction with input `x`, the displayed prediction is exactly
`predictions[0]` of the backend's response to `POST /models/{id}/predict`
with body `{ indices: [x] }` — no client-side transformation beyond display
formatting. -/
theorem custom_prediction_verbatim (backend : PredictRequest → PredictResponse)
    (modelId : Nat) (x p : ℚ) (rest : List ℚ)
    (hresp : (backend (mkPredictRequest modelId [x])).predictions = p :: rest) :
    handlePredict backend modelId (some x) = some ⟨x, some p⟩ ∧
    (mkPredictRequest modelId [x]).indices = [x] ∧
    (mkPredictRequest modelId [x]).path =
      "/models/" ++ toString modelId ++ "/predict" := by
  refine ⟨?_, rfl, rfl⟩
  simp [handlePredict, hresp]

/-- Witness for `custom_prediction_verbatim`: a backend answering `[42]` to
every request makes the displayed custom prediction for input `3` equal `42`. -/
theorem custom_prediction_verbatim_witness :
    handlePredict (fun _ => ⟨[42]⟩) 7 (some 3) = some ⟨3, some 42⟩ ∧
    (mkPredictRequest 7 [3]).indices = [3] ∧
    (mkPredictRequest 7 [3]).path = "/models/" ++ toString 7 ++ "/predict" :=
  custom_prediction_verbatim (fun _ => ⟨[42]⟩) 7 3 42 [] rfl

/-! ## C10: the EV dashboard quick stats -/

/-- A battery reading as rendered by the EV dashboard; per the backend's API
contract `state_of_health` is a required numeric field (0–100 %). -/
structure BatteryReading where
  state_of_health : ℚ
  deriving DecidableEq, Repr

/-- `Dashboard` quick stats, "Healthy Readings"
(EV `Dashboard.js`, appended in
`src/ev-battery-predictor/frontend/src/contexts/AuthContext.js`, line 270):
`recentData.filter(d => d.state_of_health > 80).length`. -/
def healthyCount (recentData : List BatteryReading) : Nat :=
  (recentData.filter fun d => decide (80 < d.state_of_health)).length

/-- `Dashboard` quick stats, "Warning Readings" (same file, line 276):
`recentData.filter(d => d.state_of_health <= 80).length`. -/
def warningCount (recentData : List BatteryReading) : Nat :=
  (recentData.filter fun d => decide (d.state_of_health ≤ 80)).length

/-- C10: every recent reading is counted in exactly one of the two quick-stat
categories, so for every list of recent readings the two displayed counts sum
to the number of readings in the list. -/
theorem quick_stats_partition (recentData : List BatteryReading) :
    healthyCount recentData + warningCount recentData = recentData.length := by
  induction recentData with
  | nil => rfl
  | cons d t ih =>
    rcases le_or_lt d.state_of_health 80 with h | h
    · have hgt : ¬ (80 : ℚ) < d.state_of_health := not_lt.mpr h
      simp only [healthyCount, warningCount, List.filter_cons,
        decide_eq_true_eq] at ih ⊢
      rw [if_neg (by simpa using hgt), if_pos (by simpa using h)]
      simp only [List.length_cons]
      omega
    · have hle : ¬ d.state_of_health ≤ 80 := not_le.mpr h
      simp only [healthyCount, warningCount, List.filter_cons,
        decide_eq_true_eq] at ih ⊢
      rw [if_pos (by simpa using h), if_neg (by simpa using hle)]
      simp only [List.length_cons]
      omega
